import Mathlib

/-!
Verification of the tool-augmented query orchestration core of a RAG chatbot:
the retrieval tools (`CourseSearchTool`, `CourseOutlineTool`), the tool
registry (`ToolManager`) from `backend/search_tools.py`, and the orchestration
loop (`AIGenerator.generate_response`) from `backend/ai_generator.py`, as a
shallow embedding.  Python object mutation is made explicit by returning the
updated object; Python exceptions are modelled with `Except`; a Python
attribute that may be absent or `None` is modelled with `Option`.
-/

namespace RagChatbot

/-- Python truthiness of an optional string (`None` and `""` are falsy). -/
def optStrTruthy : Option String → Bool
  | some s => !(s.isEmpty)
  | none => false

/-- Python truthiness of an optional integer (`None` and `0` are falsy). -/
def optIntTruthy : Option Int → Bool
  | some n => n != 0
  | none => false

/-- Python truthiness of an optional list (`None` and `[]` are falsy). -/
def optListTruthy {α : Type} : Option (List α) → Bool
  | some l => !(l.isEmpty)
  | none => false

/-- Metadata stored with one chunk in the semantic index: owning course title
and optional lesson number, as read by `meta.get(...)` in `search_tools.py`. -/
structure ChunkMeta where
  course_title : Option String
  lesson_number : Option Int
deriving DecidableEq, Repr

/-- Modelled from the spec: `SearchResults` lives in `vector_store.py`, which
is not under `src/`; the spec describes it as an ordered sequence of
(chunk content, chunk metadata) pairs plus an optional error signal. -/
structure SearchResults where
  documents : List String
  metadata : List ChunkMeta
  error : Option String
deriving DecidableEq, Repr

/-- Modelled from the spec: `SearchResults.is_empty` is defined in
`vector_store.py` (not under `src/`); per the spec a result set is empty
exactly when the index returned zero rows, i.e. no documents. -/
def SearchResults.is_empty (r : SearchResults) : Bool :=
  r.documents.isEmpty

/-- A citation record (`source_info` dict in `_format_results`):
display text plus an optional deep link. -/
structure Citation where
  text : String
  link : Option String
deriving DecidableEq, Repr

/-- The external semantic index (`VectorStore` in `vector_store.py`, not under
`src/`): modelled by its interface as consumed in `search_tools.py` — a
filtered search, link resolution, and an exact-key catalog lookup.
`course_catalog_get title` models `course_catalog.get(ids=[title])`: `none`
when the catalog has no entry / no metadata for the key, otherwise the single
metadata dict (a string-keyed record) for that title. -/
structure VectorStore where
  search : String → Option String → Option Int → SearchResults
  get_lesson_link : String → Int → Option String
  get_course_link : String → Option String
  course_catalog_get : String → Option (List (String × String))

/-- Lookup in a Python-style string dict (`metadata.get(k)`). -/
def dictGet (d : List (String × String)) (k : String) : Option String :=
  (d.find? (fun p => p.1 == k)).map (fun p => p.2)

/-- `CourseSearchTool`: the content-search tool.  Python state: the vector
store and the mutable `last_sources` citation side-channel. -/
structure CourseSearchTool where
  store : VectorStore
  last_sources : List Citation

/-- The loop body of `CourseSearchTool._format_results`: for each
(document, metadata) row build the context header, resolve the link, and
build the citation, accumulating the formatted blocks and the sources in
row order. -/
def CourseSearchTool.format_rows (store : VectorStore) :
    List (String × ChunkMeta) → List String × List Citation
  | [] => ([], [])
  | (doc, meta) :: rest =>
    let course_title := meta.course_title.getD "unknown"
    let header_base := "[" ++ course_title
    let header_with_lesson :=
      match meta.lesson_number with
      | some n => header_base ++ " - Lesson " ++ toString n
      | none => header_base
    let header := header_with_lesson ++ "]"
    let lesson_link : Option String :=
      match meta.lesson_number with
      | some n => store.get_lesson_link course_title n
      | none =>
        if course_title ≠ "unknown" then store.get_course_link course_title
        else none
    let source_text :=
      match meta.lesson_number with
      | some n => course_title ++ " - Lesson " ++ toString n
      | none => course_title
    let source_info : Citation := ⟨source_text, lesson_link⟩
    let (fs, ss) := CourseSearchTool.format_rows store rest
    ((header ++ "\n" ++ doc) :: fs, source_info :: ss)

/-- `CourseSearchTool._format_results`: formats the rows, replaces
`last_sources` with the freshly built citations, and joins the formatted
blocks with a blank line. -/
def CourseSearchTool.format_results (t : CourseSearchTool)
    (results : SearchResults) : CourseSearchTool × String :=
  let (formatted, sources) :=
    CourseSearchTool.format_rows t.store (results.documents.zip results.metadata)
  ({ t with last_sources := sources }, String.intercalate "\n\n" formatted)

/-- `CourseSearchTool.execute`: one index query; an error is returned
verbatim as data; zero rows yield a "no relevant content" message echoing the
truthy filters; otherwise the results are formatted (which also replaces the
citation side-channel). -/
def CourseSearchTool.execute (t : CourseSearchTool) (query : String)
    (course_name : Option String) (lesson_number : Option Int) :
    CourseSearchTool × String :=
  let results := t.store.search query course_name lesson_number
  if optStrTruthy results.error then
    (t, results.error.getD "")
  else if results.is_empty then
    let filter_info :=
      (if optStrTruthy course_name then
        " in course \x27" ++ course_name.getD "" ++ "\x27"
      else "")
      ++ (if optIntTruthy lesson_number then
        " in lesson " ++ toString (lesson_number.getD 0)
      else "")
    (t, "No relevant content found" ++ filter_info ++ ".")
  else
    t.format_results results

/-- One element of the deserialized lesson list.  Python reads
`lesson.get("lesson_number", "无")` and `lesson.get("lesson_title", "无标题")`
and only interpolates them into an f-string, so both fields are modelled in
their rendered (string) form, absent keys as `none`. -/
structure LessonEntry where
  lesson_number : Option String
  lesson_title : Option String
deriving DecidableEq, Repr

/-- `CourseOutlineTool`: the outline-lookup tool.  Python state: only the
vector store. -/
structure CourseOutlineTool where
  store : VectorStore

/-- One line of the lesson listing built by the loop in
`CourseOutlineTool.execute`. -/
def lessonLine (lesson : LessonEntry) : String :=
  "  第" ++ lesson.lesson_number.getD "无" ++ "课："
    ++ lesson.lesson_title.getD "无标题" ++ "\n"

/-- `CourseOutlineTool.execute`: exact-key catalog lookup.  `json_loads`
stands for Python's `json.loads` restricted to the lesson-list shape the code
reads; it returns `none` exactly when the stored field raises
`json.JSONDecodeError`, in which case the code degrades to an empty lesson
list.  The surrounding `try/except` of the Python method catches lower-level
lookup faults; in this embedding the catalog lookup is a total function, so
that branch is unreachable and `execute` is total. -/
def CourseOutlineTool.execute (json_loads : String → Option (List LessonEntry))
    (t : CourseOutlineTool) (course_title : String) : String :=
  let notFound := "Course \x27" ++ course_title ++ "\x27 not found."
  match t.store.course_catalog_get course_title with
  | none => notFound
  | some metadata =>
    if metadata.isEmpty then notFound
    else
      let course_link := (dictGet metadata "course_link").getD "No course link available"
      let lessons_json := (dictGet metadata "lessons_json").getD "[]"
      let lessons := (json_loads lessons_json).getD []
      let outline := "课程：" ++ course_title ++ "\n"
        ++ "课程链接：" ++ course_link ++ "\n\n"
        ++ "课程列表：\n"
      if !lessons.isEmpty then
        outline ++ String.join (lessons.map lessonLine)
      else
        outline ++ "  该课程暂无课程列表。"

/-- One property of a tool's JSON input schema. -/
structure PropSpec where
  type : String
  description : String
deriving DecidableEq, Repr

/-- A tool's JSON input schema. -/
structure InputSchema where
  type : String
  properties : List (String × PropSpec)
  required : List String
deriving DecidableEq, Repr

/-- An Anthropic tool definition as returned by `get_tool_definition`. -/
structure ToolDef where
  name : String
  description : String
  input_schema : InputSchema
deriving DecidableEq, Repr

/-- `CourseSearchTool.get_tool_definition`. -/
def CourseSearchTool.get_tool_definition (_t : CourseSearchTool) : ToolDef :=
  { name := "search_course_content"
    description := "使用智能课程名称匹配和课程过滤功能搜索课程材料"
    input_schema :=
      { type := "object"
        properties :=
          [ ("query", ⟨"string", "要在课程内容中搜索的内容"⟩),
            ("course_name", ⟨"string", "课程标题（支持部分匹配，例如\x27MCP\x27、\x27介绍\x27）"⟩),
            ("lesson_number", ⟨"integer", "要在其中搜索的特定课程编号（例如1、2、3）"⟩) ]
        required := ["query"] } }

/-- `CourseOutlineTool.get_tool_definition`. -/
def CourseOutlineTool.get_tool_definition (_t : CourseOutlineTool) : ToolDef :=
  { name := "get_course_outline"
    description := "获取完整课程大纲，包括标题、课程链接以及所有课程及其编号和标题"
    input_schema :=
      { type := "object"
        properties := [ ("course_title", ⟨"string", "要获取大纲的确切课程标题"⟩) ]
        required := ["course_title"] } }

/-- The closed set of `Tool` implementations present in this program. -/
inductive Tool where
  | search (t : CourseSearchTool)
  | outline (t : CourseOutlineTool)

/-- Dynamic dispatch of `get_tool_definition`. -/
def Tool.get_tool_definition : Tool → ToolDef
  | .search t => t.get_tool_definition
  | .outline t => t.get_tool_definition

/-- `hasattr(tool, "last_sources")` together with the attribute's value:
`some` for tools carrying the citation side-channel, `none` otherwise. -/
def Tool.last_sourcesAttr : Tool → Option (List Citation)
  | .search t => some t.last_sources
  | .outline _ => none

/-- A Python value threaded from model output into a tool's keyword
arguments: a string, an integer, or `None`. -/
inductive PyVal where
  | str (s : String)
  | int (n : Int)
  | none
deriving DecidableEq, Repr

/-- Keyword-argument mapping of one tool invocation. -/
abbrev KwArgs := List (String × PyVal)

/-- Lookup of one keyword argument. -/
def kwGet (kwargs : KwArgs) (k : String) : Option PyVal :=
  (kwargs.find? (fun p => p.1 == k)).map (fun p => p.2)

/-- Binding of an optional string parameter (default `None`); a non-string
non-`None` value violates the index collaborator's contract and is modelled
as a `TypeError`. -/
def bindOptStr : Option PyVal → Except String (Option String)
  | Option.none => .ok Option.none
  | some PyVal.none => .ok Option.none
  | some (PyVal.str s) => .ok (some s)
  | some (PyVal.int _) => .error "TypeError: expected a string"

/-- Binding of an optional integer parameter (default `None`). -/
def bindOptInt : Option PyVal → Except String (Option Int)
  | Option.none => .ok Option.none
  | some PyVal.none => .ok Option.none
  | some (PyVal.int n) => .ok (some n)
  | some (PyVal.str _) => .error "TypeError: expected an integer"

/-- `CourseSearchTool.execute(**kwargs)`: Python keyword binding for
`execute(self, query, course_name=None, lesson_number=None)`; an unexpected
keyword or a missing/invalid `query` raises `TypeError`. -/
def CourseSearchTool.executeKwargs (t : CourseSearchTool) (kwargs : KwArgs) :
    Except String (CourseSearchTool × String) :=
  if kwargs.all (fun p =>
      p.1 == "query" || p.1 == "course_name" || p.1 == "lesson_number") then
    match kwGet kwargs "query" with
    | some (PyVal.str q) => do
      let cn ← bindOptStr (kwGet kwargs "course_name")
      let ln ← bindOptInt (kwGet kwargs "lesson_number")
      pure (t.execute q cn ln)
    | _ => .error "TypeError: execute missing or invalid argument query"
  else
    .error "TypeError: execute got an unexpected keyword argument"

/-- `CourseOutlineTool.execute(**kwargs)`: Python keyword binding for
`execute(self, course_title)`. -/
def CourseOutlineTool.executeKwargs
    (json_loads : String → Option (List LessonEntry))
    (t : CourseOutlineTool) (kwargs : KwArgs) :
    Except String (CourseOutlineTool × String) :=
  if kwargs.all (fun p => p.1 == "course_title") then
    match kwGet kwargs "course_title" with
    | some (PyVal.str ct) => .ok (t, t.execute json_loads ct)
    | _ => .error "TypeError: execute missing or invalid argument course_title"
  else
    .error "TypeError: execute got an unexpected keyword argument"

/-- Dynamic dispatch of `execute(**kwargs)`; returns the tool with its
mutated state alongside the output string. -/
def Tool.executeKwargs (json_loads : String → Option (List LessonEntry)) :
    Tool → KwArgs → Except String (Tool × String)
  | .search t, kwargs =>
    (t.executeKwargs kwargs).map (fun p => (.search p.1, p.2))
  | .outline t, kwargs =>
    (t.executeKwargs json_loads kwargs).map (fun p => (.outline p.1, p.2))

/-- `ToolManager`: `self.tools` is a Python dict, modelled as an
insertion-ordered association list with unique keys maintained by
`register_tool`. -/
structure ToolManager where
  tools : List (String × Tool)

/-- Python dict assignment `d[k] = v`: overwrite in place when the key is
present (keeping its original position), append otherwise. -/
def dictInsert {α : Type} (d : List (String × α)) (k : String) (v : α) :
    List (String × α) :=
  if d.any (fun p => p.1 == k) then
    d.map (fun p => if p.1 == k then (k, v) else p)
  else d ++ [(k, v)]

/-- `ToolManager.register_tool`: keys the tool by the name declared in its
own definition; a falsy name raises `ValueError`. -/
def ToolManager.register_tool (tm : ToolManager) (tool : Tool) :
    Except String ToolManager :=
  let tool_def := tool.get_tool_definition
  let tool_name := tool_def.name
  if tool_name.isEmpty then
    .error "Tool must have a \x27name\x27 in its definition"
  else
    .ok ⟨dictInsert tm.tools tool_name tool⟩

/-- `ToolManager.get_tool_definitions`. -/
def ToolManager.get_tool_definitions (tm : ToolManager) : List ToolDef :=
  tm.tools.map (fun p => p.2.get_tool_definition)

/-- `ToolManager.execute_tool`: unknown names yield a textual "not found"
result; otherwise dispatch to the named tool and store its mutated state
back under its key. -/
def ToolManager.execute_tool (json_loads : String → Option (List LessonEntry))
    (tm : ToolManager) (tool_name : String) (kwargs : KwArgs) :
    Except String (ToolManager × String) :=
  match tm.tools.find? (fun p => p.1 == tool_name) with
  | Option.none => .ok (tm, "Tool \x27" ++ tool_name ++ "\x27 not found")
  | some pair => do
    let res ← pair.2.executeKwargs json_loads kwargs
    pure (⟨tm.tools.map (fun p =>
      if p.1 == tool_name then (p.1, res.1) else p)⟩, res.2)

/-- The loop of `ToolManager.get_last_sources` over the registered tools in
registration order. -/
def ToolManager.get_last_sourcesAux : List (String × Tool) → List Citation
  | [] => []
  | (_, t) :: rest =>
    match t.last_sourcesAttr with
    | some ss => if !ss.isEmpty then ss else ToolManager.get_last_sourcesAux rest
    | Option.none => ToolManager.get_last_sourcesAux rest

/-- `ToolManager.get_last_sources`: first non-empty `last_sources` attribute
among the registered tools, else `[]`. -/
def ToolManager.get_last_sources (tm : ToolManager) : List Citation :=
  ToolManager.get_last_sourcesAux tm.tools

/-- `tool.last_sources = []` for a tool that has the attribute. -/
def Tool.resetSources : Tool → Tool
  | .search t => .search { t with last_sources := [] }
  | .outline t => .outline t

/-- `ToolManager.reset_sources`: clears every registered tool's citation
side-channel. -/
def ToolManager.reset_sources (tm : ToolManager) : ToolManager :=
  ⟨tm.tools.map (fun p => (p.1, p.2.resetSources))⟩

/-- One tool-result entry fed back to the model. -/
structure ToolResult where
  tool_use_id : String
  content : String
deriving DecidableEq, Repr

/-- One content block of a model response.  `text` is `some` exactly when the
block has a `.text` attribute; `render` is the block's `str(...)` rendering,
used when `.text` is absent; `id`, `name`, `input` are read only on blocks
whose `type` is `"tool_use"`. -/
structure ContentBlock where
  type : String
  text : Option String
  id : String
  name : String
  input : KwArgs
  render : String
deriving DecidableEq, Repr

/-- A block's `.text` when the attribute is present, else its `str(...)`
rendering. -/
def blockTextOrRender (b : ContentBlock) : String :=
  match b.text with
  | some t => t
  | Option.none => b.render

/-- The content of one message in the `messages` list: the user query string,
the assistant's content blocks, or the collected tool results. -/
inductive MessageContent where
  | str (s : String)
  | blocks (bs : List ContentBlock)
  | toolResults (rs : List ToolResult)

/-- One entry of the `messages` parameter. -/
structure Message where
  role : String
  content : MessageContent

/-- The keyword arguments of one `client.messages.create(**...)` call.
`tools`/`tool_choice` are `none` exactly when the corresponding dict key is
absent from the call's parameters. -/
structure ApiRequest where
  model : String
  temperature : Int
  max_tokens : Nat
  messages : List Message
  system : String
  tools : Option (List ToolDef)
  tool_choice : Option String

/-- A model response: `stop_reason` is `some` exactly when the attribute is
present, and the list of content blocks. -/
structure ModelResponse where
  stop_reason : Option String
  content : List ContentBlock

/-- `AIGenerator.SYSTEM_PROMPT` (static). -/
def SYSTEM_PROMPT : String :=
  " 你是一个专门处理课程材料和教育内容的人工智能助手，拥有全面的课程信息搜索工具。

可用工具：
1. **search_course_content**: 在课程材料中搜索特定内容
2. **get_course_outline**: 获取完整课程大纲，包括标题、课程链接和所有课程

工具使用指南：
- **search_course_content**: 用于关于特定课程内容、概念或详细教育材料的问题
- **get_course_outline**: 当用户询问课程结构、课程列表或\x22课程X包含什么\x22时使用
- **每个查询最多使用一个工具**
- 将工具结果合成为准确、基于事实的回答
- 如果工具没有找到结果，请清楚说明

回答协议：
- **一般知识问题**：使用现有知识回答，无需使用工具
- **课程特定问题**：使用适当的工具，然后回答
- **课程大纲**：使用get_course_outline工具提供完整的课程结构
- **无元评论**：
  - 仅提供直接答案 - 不要包含推理过程、工具解释或问题类型分析
  - 不要提及\x22基于工具结果\x22

对于课程大纲查询，包括：
- 课程标题和链接
- 带有编号和标题的完整课程列表
- 清晰格式化以便阅读

所有回答必须：
1. **简洁、简明、重点突出** - 快速切入要点
2. **教育性** - 保持教学价值
3. **清晰** - 使用易懂的语言
4. **示例支持** - 在有助于理解时包含相关示例
5. **使用简体中文** - 所有回复必须使用简体中文

仅提供对所问问题的直接答案。"

/-- `AIGenerator` state relevant to the loop: the configured model name
(`self.base_params` is rebuilt from it as `{model, temperature 0,
max_tokens 800}`). -/
structure AIGenerator where
  model : String

/-- The system content built at the top of `generate_response`: the static
prompt, extended with the rendered prior conversation when one is present
(Python truthiness: `None` and `""` both mean absent). -/
def AIGenerator.systemContent (_g : AIGenerator)
    (conversation_history : Option String) : String :=
  if optStrTruthy conversation_history then
    SYSTEM_PROMPT ++ "\n\nPrevious conversation:\n" ++ conversation_history.getD ""
  else
    SYSTEM_PROMPT

/-- The first API request built by `generate_response`: base params, the user
query as the single message, the system content, and — only when the `tools`
argument is truthy — the tool definitions with automatic tool choice. -/
def AIGenerator.initialRequest (g : AIGenerator) (query : String)
    (conversation_history : Option String) (tools : Option (List ToolDef)) :
    ApiRequest :=
  { model := g.model
    temperature := 0
    max_tokens := 800
    messages := [⟨"user", .str query⟩]
    system := g.systemContent conversation_history
    tools := if optListTruthy tools then tools else Option.none
    tool_choice := if optListTruthy tools then some "auto" else Option.none }

/-- `response.content[0].text if hasattr(response.content[0], 'text') else
str(response.content[0])`; an empty content list raises `IndexError`. -/
def firstBlockText : List ContentBlock → Except String String
  | [] => .error "IndexError: list index out of range"
  | b :: _ => .ok (blockTextOrRender b)

/-- Outcome of the tool-execution loop in `_handle_tool_execution`: the
manager after the mutations, the collected tool results, the attempted
(name, kwargs) executions, and the exception that aborted the loop, if any. -/
structure ToolLoopOut where
  manager : ToolManager
  results : List ToolResult
  calls : List (String × KwArgs)
  failure : Option String

/-- The loop over `initial_response.content` in `_handle_tool_execution`:
execute every `tool_use` block in order through the manager, collecting one
tool-result entry per block; a raised `TypeError` aborts the loop. -/
def runToolBlocks (json_loads : String → Option (List LessonEntry))
    (tm : ToolManager) : List ContentBlock → ToolLoopOut
  | [] => ⟨tm, [], [], Option.none⟩
  | b :: rest =>
    if b.type == "tool_use" then
      match ToolManager.execute_tool json_loads tm b.name b.input with
      | .error e => ⟨tm, [], [(b.name, b.input)], some e⟩
      | .ok out =>
        let more := runToolBlocks json_loads out.1 rest
        ⟨more.manager, ⟨b.id, out.2⟩ :: more.results,
          (b.name, b.input) :: more.calls, more.failure⟩
    else
      runToolBlocks json_loads tm rest

/-- Outcome of `_handle_tool_execution`: the returned text (or propagated
exception), the second API request when one was issued, the attempted tool
executions, and the manager's final state. -/
structure HandleOut where
  result : Except String String
  request : Option ApiRequest
  calls : List (String × KwArgs)
  manager : ToolManager

/-- `AIGenerator._handle_tool_execution`: extend the message sequence with
the assistant's tool-use turn and (when any were produced) the tool results,
then issue the second model call from `self.base_params` — without `tools` or
`tool_choice` — and return its first block's text. -/
def AIGenerator.handle_tool_execution (g : AIGenerator)
    (json_loads : String → Option (List LessonEntry))
    (client : ApiRequest → ModelResponse) (initial_response : ModelResponse)
    (base_params : ApiRequest) (tm : ToolManager) : HandleOut :=
  let loopOut := runToolBlocks json_loads tm initial_response.content
  match loopOut.failure with
  | some e => ⟨.error e, Option.none, loopOut.calls, loopOut.manager⟩
  | Option.none =>
    let messages₀ :=
      base_params.messages ++ [⟨"assistant", .blocks initial_response.content⟩]
    let messages :=
      if !loopOut.results.isEmpty then
        messages₀ ++ [⟨"user", .toolResults loopOut.results⟩]
      else messages₀
    let final_params : ApiRequest :=
      { model := g.model
        temperature := 0
        max_tokens := 800
        messages := messages
        system := base_params.system
        tools := Option.none
        tool_choice := Option.none }
    let final_response := client final_params
    ⟨firstBlockText final_response.content, some final_params,
      loopOut.calls, loopOut.manager⟩

/-- Observable outcome of one `generate_response` run: the returned string
(or propagated exception), the API requests issued in order, the attempted
tool executions, and the tool manager's final state. -/
structure GenResult where
  result : Except String String
  requests : List ApiRequest
  tool_calls : List (String × KwArgs)
  final_manager : Option ToolManager

/-- `AIGenerator.generate_response`: build the first request, call the model,
and either return the first content block directly, or — when the response
reports the `tool_use` stop reason and a tool manager was supplied — run
`_handle_tool_execution`.  The model client is the external collaborator,
passed as a function from request parameters to a response. -/
def AIGenerator.generate_response (g : AIGenerator)
    (json_loads : String → Option (List LessonEntry))
    (client : ApiRequest → ModelResponse) (query : String)
    (conversation_history : Option String) (tools : Option (List ToolDef))
    (tool_manager : Option ToolManager) : GenResult :=
  let api_params := g.initialRequest query conversation_history tools
  let response := client api_params
  match tool_manager with
  | some tm =>
    if response.stop_reason == some "tool_use" then
      let h := g.handle_tool_execution json_loads client response api_params tm
      ⟨h.result, api_params :: h.request.toList, h.calls, some h.manager⟩
    else
      ⟨firstBlockText response.content, [api_params], [], some tm⟩
  | Option.none =>
    ⟨firstBlockText response.content, [api_params], [], Option.none⟩

/-! ### Spec-side characterizations

The following definitions restate, in the spec's words, what the formatted
output and the citations of a content search must look like; the theorems
below compare the embedded code against them. -/

/-- Spec-side: a citation's display text is the course title, suffixed with
" - Lesson n" exactly when that row's metadata carries a lesson number (an
absent course title renders as "unknown"). -/
def specCitationText (m : ChunkMeta) : String :=
  match m.lesson_number with
  | some n => m.course_title.getD "unknown" ++ " - Lesson " ++ toString n
  | Option.none => m.course_title.getD "unknown"

/-- Spec-side: a citation's link is the lesson-specific link when a lesson
number is present, else the course-level link, else absent. -/
def specCitationLink (store : VectorStore) (m : ChunkMeta) : Option String :=
  match m.lesson_number with
  | some n => store.get_lesson_link (m.course_title.getD "unknown") n
  | Option.none =>
    if m.course_title.getD "unknown" ≠ "unknown" then
      store.get_course_link (m.course_title.getD "unknown")
    else Option.none

/-- Spec-side: one citation per result row. -/
def specCitation (store : VectorStore) (m : ChunkMeta) : Citation :=
  ⟨specCitationText m, specCitationLink store m⟩

/-- Spec-side: one result row renders as a header
`[<course title>` optionally ` - Lesson <n>]` followed by a newline and the
raw chunk text. -/
def specRenderRow (row : String × ChunkMeta) : String :=
  "[" ++ specCitationText row.2 ++ "]" ++ "\n" ++ row.1

/-- Spec-side: the "no content found" message echoes back the applied truthy
filters (non-empty course name, nonzero lesson number). -/
def specNoContentMessage (course_name : Option String)
    (lesson_number : Option Int) : String :=
  "No relevant content found"
    ++ (if optStrTruthy course_name then
          " in course \x27" ++ course_name.getD "" ++ "\x27"
        else "")
    ++ (if optIntTruthy lesson_number then
          " in lesson " ++ toString (lesson_number.getD 0)
        else "")
    ++ "."

/-! ### Concrete instances used in counterexamples and witnesses -/

/-- Metadata of the single indexed chunk of the concrete example store. -/
def cexMeta : ChunkMeta := ⟨some "Course T", some 1⟩

/-- A concrete semantic index: the query "alpha" matches one chunk of
lesson 1 of "Course T"; every other query matches nothing; no errors. -/
def cexStore : VectorStore :=
  { search := fun q _ _ =>
      if q == "alpha" then ⟨["chunk one"], [cexMeta], Option.none⟩
      else ⟨[], [], Option.none⟩
    get_lesson_link := fun _ _ => some "lesson-link"
    get_course_link := fun _ => some "course-link"
    course_catalog_get := fun _ => Option.none }

/-- A fresh content-search tool over `cexStore`. -/
def cexTool0 : CourseSearchTool := ⟨cexStore, []⟩

/-- The tool after one search that returned one row. -/
def cexTool1 : CourseSearchTool :=
  (cexTool0.execute "alpha" Option.none Option.none).1

/-- The tool after a second search that returned zero rows. -/
def cexTool2 : CourseSearchTool :=
  (cexTool1.execute "beta" Option.none Option.none).1

/-- A concrete semantic index whose search always reports an error. -/
def cexErrStore : VectorStore :=
  { search := fun _ _ _ => ⟨[], [], some "Search error: connection failed"⟩
    get_lesson_link := fun _ _ => Option.none
    get_course_link := fun _ => Option.none
    course_catalog_get := fun _ => Option.none }

/-- A content-search tool over the erroring index. -/
def cexErrTool : CourseSearchTool := ⟨cexErrStore, []⟩

/-- A tool's citation side-channel as a list: its `last_sources` when the
attribute exists, `[]` otherwise. -/
def Tool.citationList (t : Tool) : List Citation :=
  (t.last_sourcesAttr).getD []

/-- Spec-side: scan the registered tools in registration order and return the
citation list of the first tool whose citation side-channel is non-empty,
returning `[]` when there is none. -/
def specLastSources (tm : ToolManager) : List Citation :=
  match tm.tools.find? (fun p => !(p.2.citationList).isEmpty) with
  | some p => p.2.citationList
  | Option.none => []

/-- Registry well-formedness: keys are unique, and every tool is stored under
the name its own definition declares (the invariant `register_tool`
maintains). -/
def ToolManager.WF (tm : ToolManager) : Prop :=
  (tm.tools.map Prod.fst).Nodup
  ∧ ∀ p ∈ tm.tools, p.2.get_tool_definition.name = p.1

/-- A concrete catalog store: "Course T" has a course link and a malformed
lesson-list field; no other course exists. -/
def cexCatalogStore : VectorStore :=
  { search := fun _ _ _ => ⟨[], [], Option.none⟩
    get_lesson_link := fun _ _ => Option.none
    get_course_link := fun _ => Option.none
    course_catalog_get := fun title =>
      if title == "Course T" then
        some [("course_link", "course-link"), ("lessons_json", "not json")]
      else Option.none }

/-- An outline tool over the concrete catalog. -/
def cexOutlineTool : CourseOutlineTool := ⟨cexCatalogStore⟩

/-- A `json.loads` stand-in on which every string is malformed. -/
def cexJsonLoadsFail : String → Option (List LessonEntry) := fun _ => Option.none

/-- A concrete tool-use content block requesting one content search. -/
def wtClientBlock : ContentBlock :=
  { type := "tool_use"
    text := Option.none
    id := "toolu_1"
    name := "search_course_content"
    input := [("query", PyVal.str "alpha")]
    render := "ToolUseBlock" }

/-- A concrete text content block for the final answer. -/
def wtTextBlock : ContentBlock :=
  { type := "text"
    text := some "final answer"
    id := ""
    name := ""
    input := []
    render := "TextBlock" }

/-- A concrete model client: requests carrying tool definitions get a
tool-use response, tool-free requests get a final text answer. -/
def wtClient : ApiRequest → ModelResponse := fun req =>
  if req.tools.isSome then ⟨some "tool_use", [wtClientBlock]⟩
  else ⟨some "end_turn", [wtTextBlock]⟩

/-- A concrete registry holding one content-search tool. -/
def wtManager : ToolManager := ⟨[("search_course_content", Tool.search cexTool0)]⟩

/-- A concrete generator. -/
def wtGen : AIGenerator := ⟨"claude-model"⟩

/-- The tool definitions attached to the concrete first model call. -/
def wtToolDefs : List ToolDef := [(Tool.search cexTool0).get_tool_definition]

/-- A concrete registry for the registration claim: one search tool stored
under its declared name. -/
def cexManager0 : ToolManager := ⟨[("search_course_content", Tool.search cexTool0)]⟩

/-- The formatting loop produces exactly the spec-side rendering and the
spec-side citations, one per row, in row order. -/
theorem format_rows_eq (store : VectorStore) (rows : List (String × ChunkMeta)) :
    CourseSearchTool.format_rows store rows
      = (rows.map specRenderRow, rows.map (fun row => specCitation store row.2)) := by
  induction rows with
  | nil => rfl
  | cons r rest ih =>
    obtain ⟨doc, meta⟩ := r
    cases hl : meta.lesson_number with
    | none =>
      simp [CourseSearchTool.format_rows, ih, specRenderRow, specCitation,
        specCitationText, specCitationLink, hl, String.append_assoc]
    | some n =>
      simp [CourseSearchTool.format_rows, ih, specRenderRow, specCitation,
        specCitationText, specCitationLink, hl, String.append_assoc]

/-- `execute` never changes the tool's store. -/
theorem execute_store_eq (t : CourseSearchTool) (q : String)
    (cn : Option String) (ln : Option Int) :
    ((t.execute q cn ln).1).store = t.store := by
  unfold CourseSearchTool.execute
  by_cases h1 : optStrTruthy (t.store.search q cn ln).error = true
  · simp [h1]
  · by_cases h2 : (t.store.search q cn ln).is_empty = true
    · simp [h1, h2]
    · simp [h1, h2, CourseSearchTool.format_results, format_rows_eq]

/-- C4: for every non-empty, error-free result set, `CourseSearchTool.execute`
returns the result rows rendered as `[<course title>` optionally
` - Lesson <n>]`, a newline, and the raw chunk text, joined by a blank line in
result order; and each produced citation's display text is the course title,
suffixed with ` - Lesson <n>` exactly when that row's metadata carries a
lesson number. -/
theorem C4_search_formatting (t : CourseSearchTool) (q : String)
    (cn : Option String) (ln : Option Int)
    (herr : optStrTruthy (t.store.search q cn ln).error = false)
    (hne : (t.store.search q cn ln).is_empty = false) :
    (t.execute q cn ln).2
      = String.intercalate "\n\n"
          (((t.store.search q cn ln).documents.zip
              (t.store.search q cn ln).metadata).map specRenderRow)
    ∧ ((t.execute q cn ln).1.last_sources).map Citation.text
      = ((t.store.search q cn ln).documents.zip
          (t.store.search q cn ln).metadata).map (fun row => specCitationText row.2) := by
  constructor
  · simp [CourseSearchTool.execute, herr, hne, CourseSearchTool.format_results,
      format_rows_eq]
  · simp [CourseSearchTool.execute, herr, hne, CourseSearchTool.format_results,
      format_rows_eq, specCitation]

/-- C5: whenever the index result carries an error signal (a truthy error
string), `execute` returns that error text verbatim; the embedded `execute`
is a total function, so no exception escapes this boundary. -/
theorem C5_error_verbatim (t : CourseSearchTool) (q : String)
    (cn : Option String) (ln : Option Int) (e : String)
    (herr : (t.store.search q cn ln).error = some e) (hne : e ≠ "") :
    (t.execute q cn ln).2 = e := by
  have hemp : e.isEmpty = false := by
    cases he : e.isEmpty
    · rfl
    · exact absurd ((String.isEmpty_iff e).mp he) hne
  unfold CourseSearchTool.execute
  simp [herr, optStrTruthy, hemp]

/-- On a non-empty, error-free result the citation side-channel is replaced
with exactly one spec-side citation per row, in row order. -/
theorem execute_sources_replaced (t : CourseSearchTool) (q : String)
    (cn : Option String) (ln : Option Int)
    (herr : optStrTruthy (t.store.search q cn ln).error = false)
    (hne : (t.store.search q cn ln).is_empty = false) :
    (t.execute q cn ln).1.last_sources
      = ((t.store.search q cn ln).documents.zip
          (t.store.search q cn ln).metadata).map
            (fun row => specCitation t.store row.2) := by
  simp [CourseSearchTool.execute, herr, hne, CourseSearchTool.format_results,
    format_rows_eq]

/-- On an error or an empty result the citation side-channel is left
untouched. -/
theorem execute_sources_unchanged (t : CourseSearchTool) (q : String)
    (cn : Option String) (ln : Option Int)
    (h : optStrTruthy (t.store.search q cn ln).error = true ∨
      (t.store.search q cn ln).is_empty = true) :
    (t.execute q cn ln).1.last_sources = t.last_sources := by
  rcases h with h | h
  · simp [CourseSearchTool.execute, h]
  · by_cases h1 : optStrTruthy (t.store.search q cn ln).error = true
    · simp [CourseSearchTool.execute, h1]
    · simp [CourseSearchTool.execute, h1, h]

/-- C2 (counterexample): after a search returning one row, a second search on
the same instance returning zero rows and no error leaves the citation list
holding the first call's entry — it is not replaced by an empty list, so the
side-channel is not fully replaced on every call. -/
theorem C2_counterexample :
    (cexStore.search "beta" Option.none Option.none).documents = []
    ∧ (cexStore.search "beta" Option.none Option.none).error = Option.none
    ∧ cexTool2.last_sources ≠ []
    ∧ cexTool2.last_sources = cexTool1.last_sources := by
  decide

/-- C2 (amended): a call of `CourseSearchTool.execute` whose result set is
non-empty and error-free fully replaces `last_sources` with exactly one
citation per returned row, in result order; a call whose result is an error
or empty leaves `last_sources` unchanged; consequently, after two consecutive
executes whose second call returns a non-empty, error-free result set, the
citation list matches only the second call's results. -/
theorem C2_citation_replacement (t : CourseSearchTool) (q : String)
    (cn : Option String) (ln : Option Int) :
    (optStrTruthy (t.store.search q cn ln).error = false →
      (t.store.search q cn ln).is_empty = false →
      (t.execute q cn ln).1.last_sources
        = ((t.store.search q cn ln).documents.zip
            (t.store.search q cn ln).metadata).map
              (fun row => specCitation t.store row.2))
    ∧ (optStrTruthy (t.store.search q cn ln).error = true ∨
        (t.store.search q cn ln).is_empty = true →
      (t.execute q cn ln).1.last_sources = t.last_sources)
    ∧ (∀ (q₁ : String) (cn₁ : Option String) (ln₁ : Option Int),
        optStrTruthy (t.store.search q cn ln).error = false →
        (t.store.search q cn ln).is_empty = false →
        (((t.execute q₁ cn₁ ln₁).1).execute q cn ln).1.last_sources
          = ((t.store.search q cn ln).documents.zip
              (t.store.search q cn ln).metadata).map
                (fun row => specCitation t.store row.2)) := by
  refine ⟨fun herr hne => execute_sources_replaced t q cn ln herr hne,
    fun h => execute_sources_unchanged t q cn ln h,
    fun q₁ cn₁ ln₁ herr hne => ?_⟩
  have hs := execute_store_eq t q₁ cn₁ ln₁
  have h₂ := execute_sources_replaced ((t.execute q₁ cn₁ ln₁).1) q cn ln
    (by rw [hs]; exact herr) (by rw [hs]; exact hne)
  rw [hs] at h₂
  exact h₂

/-- Witness for C2's amended theorem at concrete inputs: the first search
stores one citation, and a second zero-row search leaves it unchanged. -/
theorem C2_witness :
    cexTool1.last_sources = [⟨"Course T - Lesson 1", some "lesson-link"⟩]
    ∧ cexTool2.last_sources = cexTool1.last_sources :=
  ⟨((C2_citation_replacement cexTool0 "alpha" Option.none Option.none).1
      (by decide) (by decide)).trans (by decide),
   (C2_citation_replacement cexTool1 "beta" Option.none Option.none).2.1
      (Or.inr (by decide))⟩

/-- C3 (counterexample): after a prior successful search, an execute whose
result has zero rows and no error leaves the citation list non-empty (stale),
contradicting "after the call the tool's citation list is empty"; moreover a
zero-row call with the applied lesson filter `0` (falsy in Python) returns
the bare message that names no filter. -/
theorem C3_counterexample :
    (cexStore.search "beta" Option.none Option.none).documents = []
    ∧ (cexStore.search "beta" Option.none Option.none).error = Option.none
    ∧ (cexTool1.execute "beta" Option.none Option.none).1.last_sources ≠ []
    ∧ (cexTool0.execute "beta" Option.none (some 0)).2
        = "No relevant content found." := by
  decide

/-- C3 (amended): a call whose result has zero rows and no error returns the
non-empty "no relevant content found" message echoing the truthy applied
filters (non-empty course name, nonzero lesson number), and leaves the
citation list unchanged — hence empty exactly when it was empty before the
call (e.g. on a fresh instance). -/
theorem C3_empty_message (t : CourseSearchTool) (q : String)
    (cn : Option String) (ln : Option Int)
    (herr : optStrTruthy (t.store.search q cn ln).error = false)
    (hemp : (t.store.search q cn ln).is_empty = true) :
    (t.execute q cn ln).2 = specNoContentMessage cn ln
    ∧ (t.execute q cn ln).2 ≠ ""
    ∧ (t.execute q cn ln).1.last_sources = t.last_sources := by
  have hmsg : (t.execute q cn ln).2 = specNoContentMessage cn ln := by
    simp [CourseSearchTool.execute, herr, hemp, specNoContentMessage,
      String.append_assoc]
  refine ⟨hmsg, ?_, execute_sources_unchanged t q cn ln (Or.inr hemp)⟩
  rw [hmsg]
  intro h
  have hlen := congrArg String.length h
  have h1 : ("No relevant content found" : String).length = 25 := rfl
  have h2 : ("." : String).length = 1 := rfl
  have h3 : ("" : String).length = 0 := rfl
  simp only [specNoContentMessage, String.length_append, h1, h2, h3] at hlen
  omega

/-- Witness for C3's amended theorem at concrete inputs: a zero-match search
with a lesson filter yields the message naming the filter, and the fresh
instance's citation list stays empty. -/
theorem C3_witness :
    (cexTool0.execute "beta" Option.none (some 2)).2
      = "No relevant content found in lesson 2."
    ∧ (cexTool0.execute "beta" Option.none (some 2)).1.last_sources = [] :=
  ⟨((C3_empty_message cexTool0 "beta" Option.none (some 2)
      (by decide) (by decide)).1).trans (by decide),
   (C3_empty_message cexTool0 "beta" Option.none (some 2)
      (by decide) (by decide)).2.2⟩

/-- Witness for C4 at concrete inputs: one matching row renders as its header
block, and the single citation's text carries the lesson suffix. -/
theorem C4_witness :
    (cexTool0.execute "alpha" Option.none Option.none).2
      = "[Course T - Lesson 1]\nchunk one"
    ∧ ((cexTool0.execute "alpha" Option.none Option.none).1.last_sources).map
        Citation.text = ["Course T - Lesson 1"] :=
  ⟨((C4_search_formatting cexTool0 "alpha" Option.none Option.none
      (by decide) (by decide)).1).trans (by decide),
   ((C4_search_formatting cexTool0 "alpha" Option.none Option.none
      (by decide) (by decide)).2).trans (by decide)⟩

/-- Witness for C5 at concrete inputs: the erroring index's message comes
back verbatim. -/
theorem C5_witness :
    (cexErrTool.execute "anything" Option.none Option.none).2
      = "Search error: connection failed" :=
  C5_error_verbatim cexErrTool "anything" Option.none Option.none
    "Search error: connection failed" (by decide) (by decide)

/-- C6: for every course title whose catalog lookup yields no entry or no
metadata, `CourseOutlineTool.execute` returns the deterministic "not found"
message, which contains the requested title; the embedded `execute` is a
total function, so the call never raises. -/
theorem C6_outline_not_found (json_loads : String → Option (List LessonEntry))
    (t : CourseOutlineTool) (title : String)
    (h : t.store.course_catalog_get title = Option.none ∨
      t.store.course_catalog_get title = some []) :
    t.execute json_loads title = "Course \x27" ++ title ++ "\x27 not found."
    ∧ ∃ pre post, t.execute json_loads title = pre ++ title ++ post := by
  have hmain : t.execute json_loads title
      = "Course \x27" ++ title ++ "\x27 not found." := by
    rcases h with h | h <;> simp [CourseOutlineTool.execute, h]
  exact ⟨hmain, "Course \x27", "\x27 not found.", hmain⟩

/-- Witness for C6 at a concrete missing title. -/
theorem C6_witness :
    CourseOutlineTool.execute cexJsonLoadsFail cexOutlineTool "Nope"
      = "Course \x27Nope\x27 not found." :=
  ((C6_outline_not_found cexJsonLoadsFail cexOutlineTool "Nope"
    (Or.inl (by decide))).1).trans (by decide)

/-- C7: for every catalog hit whose stored lesson-list field is present but
not parseable, `CourseOutlineTool.execute` does not fail: it returns the
outline carrying the course title and the course link, ending in the explicit
"no lessons" statement, i.e. the lesson list is treated as empty. -/
theorem C7_outline_malformed_lessons
    (json_loads : String → Option (List LessonEntry))
    (t : CourseOutlineTool) (title : String)
    (meta : List (String × String)) (s : String)
    (hcat : t.store.course_catalog_get title = some meta)
    (hne : meta.isEmpty = false)
    (hfield : dictGet meta "lessons_json" = some s)
    (hbad : json_loads s = Option.none) :
    t.execute json_loads title
      = "课程：" ++ title ++ "\n"
        ++ "课程链接：" ++ (dictGet meta "course_link").getD "No course link available"
        ++ "\n\n" ++ "课程列表：\n" ++ "  该课程暂无课程列表。" := by
  simp [CourseOutlineTool.execute, hcat, hne, hfield, hbad, String.append_assoc]

/-- Witness for C7 at the concrete malformed catalog entry. -/
theorem C7_witness :
    CourseOutlineTool.execute cexJsonLoadsFail cexOutlineTool "Course T"
      = "课程：Course T\n课程链接：course-link\n\n课程列表：\n  该课程暂无课程列表。" :=
  (C7_outline_malformed_lessons cexJsonLoadsFail cexOutlineTool "Course T"
    [("course_link", "course-link"), ("lessons_json", "not json")] "not json"
    (by decide) (by decide) (by decide) rfl).trans (by decide)

/-- The scan loop of `get_last_sources` agrees with the spec-side
first-non-empty characterization. -/
theorem get_last_sourcesAux_eq (l : List (String × Tool)) :
    ToolManager.get_last_sourcesAux l
      = match l.find? (fun p => !(p.2.citationList).isEmpty) with
        | some p => p.2.citationList
        | Option.none => [] := by
  induction l with
  | nil => rfl
  | cons p rest ih =>
    obtain ⟨n, t⟩ := p
    cases t with
    | search s =>
      by_cases hs : s.last_sources.isEmpty = true
      · simp [ToolManager.get_last_sourcesAux, Tool.citationList,
          Tool.last_sourcesAttr, List.find?_cons, hs, ih]
      · simp [ToolManager.get_last_sourcesAux, Tool.citationList,
          Tool.last_sourcesAttr, List.find?_cons, hs]
    | outline o =>
      simp [ToolManager.get_last_sourcesAux, Tool.citationList,
        Tool.last_sourcesAttr, List.find?_cons, ih]

/-- C8: for every registry state, `get_last_sources` scans the registered
tools in registration order and returns the citation list of the first tool
with a non-empty citation side-channel (`[]` when none has one), and
`reset_sources` empties the citation side-channel of every registered tool
while preserving the registry's keys. -/
theorem C8_last_sources_scan (tm : ToolManager) :
    tm.get_last_sources = specLastSources tm
    ∧ (tm.reset_sources).tools.all (fun p => (p.2.citationList).isEmpty) = true
    ∧ (tm.reset_sources).tools.map Prod.fst = tm.tools.map Prod.fst := by
  refine ⟨get_last_sourcesAux_eq tm.tools, ?_, ?_⟩
  · simp only [ToolManager.reset_sources, List.all_map, List.all_eq_true,
      Function.comp]
    intro p _
    cases hp : p.2 <;>
      simp [Tool.resetSources, Tool.citationList, Tool.last_sourcesAttr]
  · simp only [ToolManager.reset_sources, List.map_map]
    rfl

/-- Overwriting a present key in place preserves the key sequence. -/
theorem map_fst_replace {α : Type} (d : List (String × α)) (k : String) (v : α) :
    (d.map (fun p => if p.1 == k then (k, v) else p)).map Prod.fst
      = d.map Prod.fst := by
  induction d with
  | nil => rfl
  | cons p rest ih =>
    simp only [List.map_cons, ih]
    by_cases hp : (p.1 == k) = true
    · have hk : p.1 = k := by simpa using hp
      rw [if_pos hp, hk]
    · rw [if_neg hp]

/-- After an in-place overwrite of a present key, lookup by that key yields
the new value. -/
theorem find?_replace_self {α : Type} (d : List (String × α)) (k : String)
    (v : α) (h : d.any (fun p => p.1 == k) = true) :
    (d.map (fun p => if p.1 == k then (k, v) else p)).find?
        (fun p => p.1 == k) = some (k, v) := by
  induction d with
  | nil => simp at h
  | cons p rest ih =>
    simp only [List.map_cons]
    by_cases hp : (p.1 == k) = true
    · rw [if_pos hp]
      exact List.find?_cons_of_pos _ (by simp)
    · rw [if_neg hp]
      rw [List.find?_cons_of_neg _ (by simpa using hp)]
      apply ih
      rw [List.any_cons] at h
      rcases Bool.or_eq_true_iff.mp h with h1 | h1
      · exact absurd h1 hp
      · exact h1

/-- After appending a fresh key, lookup by that key yields the new value. -/
theorem find?_append_self {α : Type} (d : List (String × α)) (k : String)
    (v : α) (h : d.any (fun p => p.1 == k) = false) :
    (d ++ [(k, v)]).find? (fun p => p.1 == k) = some (k, v) := by
  induction d with
  | nil => exact List.find?_cons_of_pos _ (by simp)
  | cons p rest ih =>
    rw [List.any_cons, Bool.or_eq_false_iff] at h
    rw [List.cons_append, List.find?_cons_of_neg _ (by simp [h.1])]
    exact ih h.2

/-- The key sequence after a dict assignment: unchanged when the key was
present, extended by the key when it was absent. -/
theorem dictInsert_keys {α : Type} (d : List (String × α)) (k : String) (v : α) :
    (dictInsert d k v).map Prod.fst
      = if d.any (fun p => p.1 == k) = true then d.map Prod.fst
        else d.map Prod.fst ++ [k] := by
  unfold dictInsert
  by_cases h : d.any (fun p => p.1 == k) = true
  · rw [if_pos h, if_pos h]
    exact map_fst_replace d k v
  · rw [if_neg h, if_neg h, List.map_append]
    rfl

/-- Both concrete tools declare a non-empty name. -/
theorem tool_def_name_ne (t : Tool) :
    t.get_tool_definition.name.isEmpty = false := by
  cases t <;> rfl

/-- C9: `register_tool` keys the tool by the name its own definition
declares, silently overwriting in place: registration succeeds, the
registry's well-formedness (unique keys, key = declared name) is preserved,
lookup by the declared name yields the new tool, the key sequence is
unchanged when the name was already registered and extended by it otherwise,
and `get_tool_definitions` carries at most one entry per name. -/
theorem C9_register_overwrite (tm : ToolManager) (t : Tool) (hwf : tm.WF) :
    ∃ tm', tm.register_tool t = .ok tm'
      ∧ tm'.WF
      ∧ tm'.tools.find? (fun p => p.1 == t.get_tool_definition.name)
          = some (t.get_tool_definition.name, t)
      ∧ (tm.tools.any (fun p => p.1 == t.get_tool_definition.name) = true →
          tm'.tools.map Prod.fst = tm.tools.map Prod.fst)
      ∧ (tm.tools.any (fun p => p.1 == t.get_tool_definition.name) = false →
          tm'.tools.map Prod.fst
            = tm.tools.map Prod.fst ++ [t.get_tool_definition.name])
      ∧ ((tm'.get_tool_definitions).map ToolDef.name).Nodup := by
  set k := t.get_tool_definition.name with hk
  have hwf' : (ToolManager.mk (dictInsert tm.tools k t)).WF := by
    constructor
    · show (dictInsert tm.tools k t).map Prod.fst |>.Nodup
      rw [dictInsert_keys]
      by_cases h : tm.tools.any (fun p => p.1 == k) = true
      · simpa [h] using hwf.1
      · have hmem : k ∉ tm.tools.map Prod.fst := by
          intro hmem
          obtain ⟨p, hp, hpk⟩ := List.mem_map.mp hmem
          have htrue : tm.tools.any (fun p => p.1 == k) = true :=
            List.any_eq_true.mpr ⟨p, hp, by simp [hpk]⟩
          exact h htrue
        simp [h, List.nodup_append, hwf.1, hmem]
    · intro p hp
      unfold dictInsert at hp
      by_cases h : tm.tools.any (fun p => p.1 == k) = true
      · rw [if_pos h] at hp
        obtain ⟨q, hq, hpq⟩ := List.mem_map.mp hp
        by_cases hqk : (q.1 == k) = true
        · rw [if_pos hqk] at hpq
          rw [← hpq]
        · rw [if_neg hqk] at hpq
          rw [← hpq]
          exact hwf.2 q hq
      · rw [if_neg h] at hp
        rcases List.mem_append.mp hp with hp | hp
        · exact hwf.2 p hp
        · have hpkt : p = (k, t) := List.mem_singleton.mp hp
          rw [hpkt]
  refine ⟨⟨dictInsert tm.tools k t⟩, ?_, hwf', ?_, ?_, ?_, ?_⟩
  · unfold ToolManager.register_tool
    simp [tool_def_name_ne t]
  · show (dictInsert tm.tools k t).find? (fun p => p.1 == k) = some (k, t)
    unfold dictInsert
    by_cases h : tm.tools.any (fun p => p.1 == k) = true
    · rw [if_pos h]
      exact find?_replace_self tm.tools k t h
    · rw [if_neg h]
      refine find?_append_self tm.tools k t ?_
      cases hx : tm.tools.any (fun p => p.1 == k) with
      | false => rfl
      | true => exact absurd hx h
  · intro h
    show (dictInsert tm.tools k t).map Prod.fst = tm.tools.map Prod.fst
    rw [dictInsert_keys, if_pos h]
  · intro h
    show (dictInsert tm.tools k t).map Prod.fst
      = tm.tools.map Prod.fst ++ [k]
    rw [dictInsert_keys, if_neg (by simp [h])]
  · have hnames : (ToolManager.get_tool_definitions ⟨dictInsert tm.tools k t⟩).map
        ToolDef.name = (dictInsert tm.tools k t).map Prod.fst := by
      unfold ToolManager.get_tool_definitions
      rw [List.map_map]
      exact List.map_congr_left (fun p hp => hwf'.2 p hp)
    rw [hnames]
    exact hwf'.1

/-- Witness for C9 at a concrete registry: registering a second tool whose
definition declares the already-registered name keeps a single key. -/
theorem C9_witness :
    ∃ tm', cexManager0.register_tool (Tool.search cexErrTool) = .ok tm'
      ∧ tm'.tools.map Prod.fst = ["search_course_content"] := by
  obtain ⟨tm', hok, _, _, hpres, _, _⟩ :=
    C9_register_overwrite cexManager0 (Tool.search cexErrTool)
      ⟨by decide, by decide⟩
  exact ⟨tm', hok, (hpres (by decide)).trans (by decide)⟩

/-- When a `tool_use` block aborts the loop with an exception, the whole
query fails with that exception and no second request is issued. -/
theorem handle_fail (g : AIGenerator)
    (json_loads : String → Option (List LessonEntry))
    (client : ApiRequest → ModelResponse) (resp : ModelResponse)
    (base : ApiRequest) (tm : ToolManager) (e : String)
    (hfail : (runToolBlocks json_loads tm resp.content).failure = some e) :
    (g.handle_tool_execution json_loads client resp base tm).result
      = .error e := by
  unfold AIGenerator.handle_tool_execution
  simp [hfail]

/-- When every requested tool executes, `_handle_tool_execution` issues
exactly one further request, and that request carries no tool definitions. -/
theorem handle_ok_request (g : AIGenerator)
    (json_loads : String → Option (List LessonEntry))
    (client : ApiRequest → ModelResponse) (resp : ModelResponse)
    (base : ApiRequest) (tm : ToolManager)
    (hfail : (runToolBlocks json_loads tm resp.content).failure = Option.none) :
    ∃ r₂, (g.handle_tool_execution json_loads client resp base tm).request
        = some r₂
      ∧ r₂.tools = Option.none := by
  unfold AIGenerator.handle_tool_execution
  simp [hfail]

/-- On a `tool_use` stop reason with a supplied manager, `generate_response`
is `_handle_tool_execution`'s outcome appended to the initial request. -/
theorem generate_response_tool_use (g : AIGenerator)
    (json_loads : String → Option (List LessonEntry))
    (client : ApiRequest → ModelResponse) (q : String) (hist : Option String)
    (tools : Option (List ToolDef)) (tm : ToolManager)
    (hstop : (client (g.initialRequest q hist tools)).stop_reason
      = some "tool_use") :
    g.generate_response json_loads client q hist tools (some tm)
      = { result := (g.handle_tool_execution json_loads client
            (client (g.initialRequest q hist tools))
            (g.initialRequest q hist tools) tm).result
          requests := g.initialRequest q hist tools ::
            ((g.handle_tool_execution json_loads client
              (client (g.initialRequest q hist tools))
              (g.initialRequest q hist tools) tm).request).toList
          tool_calls := (g.handle_tool_execution json_loads client
            (client (g.initialRequest q hist tools))
            (g.initialRequest q hist tools) tm).calls
          final_manager := some (g.handle_tool_execution json_loads client
            (client (g.initialRequest q hist tools))
            (g.initialRequest q hist tools) tm).manager } := by
  unfold AIGenerator.generate_response
  dsimp only
  rw [hstop]
  rfl

/-- C1: for every query whose first model call reports the `tool_use` stop
condition (with a tool manager supplied) and that completes without a raised
exception, the loop issues exactly two model calls, and the second call's
parameters carry no `tools` key — no second round of tool use is possible. -/
theorem C1_two_calls (g : AIGenerator)
    (json_loads : String → Option (List LessonEntry))
    (client : ApiRequest → ModelResponse) (q : String) (hist : Option String)
    (tools : Option (List ToolDef)) (tm : ToolManager)
    (hstop : (client (g.initialRequest q hist tools)).stop_reason
      = some "tool_use")
    (hok : (g.generate_response json_loads client q hist tools
      (some tm)).result.isOk = true) :
    ∃ r₂, (g.generate_response json_loads client q hist tools
        (some tm)).requests = [g.initialRequest q hist tools, r₂]
      ∧ r₂.tools = Option.none := by
  rw [generate_response_tool_use g json_loads client q hist tools tm hstop]
    at hok ⊢
  cases hfail : (runToolBlocks json_loads tm
      (client (g.initialRequest q hist tools)).content).failure with
  | some e =>
    rw [handle_fail g json_loads client _ _ tm e hfail] at hok
    simp [Except.isOk, Except.toBool] at hok
  | none =>
    obtain ⟨r₂, hreq, htools⟩ :=
      handle_ok_request g json_loads client
        (client (g.initialRequest q hist tools))
        (g.initialRequest q hist tools) tm hfail
    refine ⟨r₂, ?_, htools⟩
    simp only [hreq]
    rfl

/-- Witness for C1 at a concrete run: a tool-use first response leads to
exactly two requests, the second without tool definitions. -/
theorem C1_witness :
    ∃ r₂, (wtGen.generate_response cexJsonLoadsFail wtClient "alpha"
        Option.none (some wtToolDefs) (some wtManager)).requests
      = [wtGen.initialRequest "alpha" Option.none (some wtToolDefs), r₂]
      ∧ r₂.tools = Option.none :=
  C1_two_calls wtGen cexJsonLoadsFail wtClient "alpha" Option.none
    (some wtToolDefs) wtManager (by decide) (by decide)

/-- C10: when the first model call reports the `tool_use` stop condition but
no tool manager was supplied, the loop executes no tool and issues no second
model call; it returns the first content block of the tool-use response —
its `.text` when present, else its string rendering. -/
theorem C10_no_manager (g : AIGenerator)
    (json_loads : String → Option (List LessonEntry))
    (client : ApiRequest → ModelResponse) (q : String) (hist : Option String)
    (tools : Option (List ToolDef)) (b : ContentBlock) (bs : List ContentBlock)
    (hstop : (client (g.initialRequest q hist tools)).stop_reason
      = some "tool_use")
    (hcontent : (client (g.initialRequest q hist tools)).content = b :: bs) :
    (g.generate_response json_loads client q hist tools Option.none).requests
      = [g.initialRequest q hist tools]
    ∧ (g.generate_response json_loads client q hist tools
        Option.none).tool_calls = []
    ∧ (g.generate_response json_loads client q hist tools Option.none).result
        = .ok (blockTextOrRender b) := by
  unfold AIGenerator.generate_response
  dsimp only
  refine ⟨rfl, rfl, ?_⟩
  rw [hcontent]
  rfl

/-- Witness for C10 at a concrete run: one request, no tool executions, and
the tool-use block's rendering returned. -/
theorem C10_witness :
    (wtGen.generate_response cexJsonLoadsFail wtClient "alpha" Option.none
        (some wtToolDefs) Option.none).requests
      = [wtGen.initialRequest "alpha" Option.none (some wtToolDefs)]
    ∧ (wtGen.generate_response cexJsonLoadsFail wtClient "alpha" Option.none
        (some wtToolDefs) Option.none).tool_calls = []
    ∧ (wtGen.generate_response cexJsonLoadsFail wtClient "alpha" Option.none
        (some wtToolDefs) Option.none).result
      = .ok (blockTextOrRender wtClientBlock) :=
  C10_no_manager wtGen cexJsonLoadsFail wtClient "alpha" Option.none
    (some wtToolDefs) wtClientBlock [] (by decide) (by decide)

end RagChatbot
